import Mathlib

/-!
Shallow embedding of `cryptoprice.py`: the Poloniex chart-data fetcher class
`CryptoData` — its constructor, timestamp handling, API-response parsing,
dataframe normalization, CSV persistence, and the retry-wrapped `run`
pipeline — together with theorems settling the specification claims.

Machine-dependent ingredients (the local time zone used by `time.mktime`,
the wall clock, the network, the random retry delay, and filesystem write
success) are passed explicitly as environment parameters.
-/

/-- The module-level list `AVAILABLE_CURRENCY_PAIRS` of `cryptoprice.py`. -/
def AVAILABLE_CURRENCY_PAIRS : List String :=
  ["BTC_AMP", "BTC_ARDR", "BTC_BCH", "BTC_BCN", "BTC_BCY", "BTC_BELA",
   "BTC_BLK", "BTC_BTCD", "BTC_BTM", "BTC_BTS", "BTC_BURST", "BTC_CLAM",
   "BTC_CVC", "BTC_DASH", "BTC_DCR", "BTC_DGB", "BTC_DOGE", "BTC_EMC2",
   "BTC_ETC", "BTC_ETH", "BTC_EXP", "BTC_FCT", "BTC_FLDC", "BTC_FLO", "BTC_GAME",
   "BTC_GAS", "BTC_GNO", "BTC_GNT", "BTC_GRC", "BTC_HUC", "BTC_LBC", "BTC_LSK",
   "BTC_LTC", "BTC_MAID", "BTC_NAV", "BTC_NEOS", "BTC_NMC", "BTC_NXC", "BTC_NXT",
   "BTC_OMG", "BTC_OMNI", "BTC_PASC", "BTC_PINK", "BTC_POT", "BTC_PPC", "BTC_RADS",
   "BTC_SC", "BTC_STEEM", "BTC_STORJ", "BTC_STR", "BTC_STRAT", "BTC_SYS",
   "BTC_VIA", "BTC_VRC", "BTC_VTC", "BTC_XBC", "BTC_XCP", "BTC_XEM", "BTC_XMR",
   "BTC_XPM", "BTC_XRP", "BTC_XVC", "BTC_ZEC", "BTC_ZRX", "ETH_BCH", "ETH_CVC",
   "ETH_ETC", "ETH_GAS", "ETH_GNO", "ETH_GNT", "ETH_LSK", "ETH_OMG", "ETH_REP",
   "ETH_STEEM", "ETH_ZEC", "ETH_ZRX", "USDT_BCH", "USDT_BTC", "USDT_DASH",
   "USDT_ETC", "USDT_ETH", "USDT_LTC", "USDT_NXT", "USDT_REP", "USDT_STR",
   "USDT_XMR", "USDT_XRP", "USDT_ZEC", "XMR_BCN", "XMR_BLK", "XMR_BTCD", "XMR_DASH",
   "XMR_LTC", "XMR_MAID", "XMR_NXT", "XMR_ZEC", "BTC_REP", "BTC_RIC", "BTC_SBD"]

/-- A single-quote character (code 39), used when rendering Python string
literals without writing the character itself. -/
def squote : String := String.singleton (Char.ofNat 39)

/-- Python `repr` of a list of strings, as produced when a list is
interpolated into an f-string (single-quoted elements, comma-space
separated, square brackets). -/
def pyListRepr (l : List String) : String :=
  "[" ++ String.intercalate ", " (l.map (fun s => squote ++ s ++ squote)) ++ "]"

/-- Days since the Unix epoch of a proleptic-Gregorian civil date with
year ≥ 1 (the range `strptime` produces), via the standard
era/year-of-era decomposition. -/
def daysFromCivil (y m d : Nat) : Int :=
  let yy := if m ≤ 2 then y - 1 else y
  let era := yy / 400
  let yoe := yy % 400
  let mp := (m + 9) % 12
  let doy := (153 * mp + 2) / 5 + (d - 1)
  let doe := yoe * 365 + yoe / 4 - yoe / 100 + doy
  (era * 146097 + doe : Int) - 719468

/-- Civil date (year, month, day) from days since the Unix epoch; inverse of
`daysFromCivil`. -/
def civilFromDays (z : Int) : Int × Nat × Nat :=
  let zShift := z + 719468
  let era := Int.ediv zShift 146097
  let doe := (Int.emod zShift 146097).toNat
  let yoe := (doe - doe / 1460 + doe / 36524 - doe / 146096) / 365
  let y := (yoe : Int) + era * 400
  let doy := doe - (365 * yoe + yoe / 4 - yoe / 100)
  let mp := (5 * doy + 2) / 153
  let d := doy - (153 * mp + 2) / 5 + 1
  let m := if mp < 10 then mp + 3 else mp - 9
  (if m ≤ 2 then y + 1 else y, m, d)

/-- The value of `datetime.datetime.utcfromtimestamp`: a naive calendar
date-time (UTC). -/
structure Datetime where
  year : Int
  month : Nat
  day : Nat
  hour : Nat
  minute : Nat
  second : Nat
deriving DecidableEq, Repr

/-- `datetime.datetime.utcfromtimestamp(t)`. -/
def utcfromtimestamp (t : Int) : Datetime :=
  let days := Int.ediv t 86400
  let secs := (Int.emod t 86400).toNat
  let c := civilFromDays days
  ⟨c.1, c.2.1, c.2.2, secs / 3600, secs / 60 % 60, secs % 60⟩

/-- Mixed-radix linearization of a `Datetime`. For the in-range field values
produced by `utcfromtimestamp` (month ≤ 12, day ≤ 31, hour < 24,
minute, second < 60) it realizes exactly the calendar (lexicographic) order
in which pandas compares datetime values. -/
def Datetime.key (t : Datetime) : Int :=
  ((((t.year * 13 + t.month) * 32 + t.day) * 24 + t.hour) * 60 + t.minute) * 60 + t.second

/-- Gregorian leap-year test. -/
def isLeapYear (y : Nat) : Bool :=
  y % 4 == 0 && (y % 100 != 0 || y % 400 == 0)

/-- Number of days in a month. -/
def daysInMonth (y m : Nat) : Nat :=
  if m == 2 then (if isLeapYear y then 29 else 28)
  else if m == 4 || m == 6 || m == 9 || m == 11 then 30
  else 31

/-- Python `str.upper` (ASCII range, which covers the currency pairs). -/
def upper (s : String) : String := ⟨s.data.map Char.toUpper⟩

/-- Split a character list at every dash. -/
def splitDash : List Char → List (List Char)
  | [] => [[]]
  | x :: xs =>
    match splitDash xs with
    | [] => [[]]
    | g :: gs => if x = '-' then [] :: g :: gs else (x :: g) :: gs

/-- Accumulator pass of decimal parsing. -/
def digitsToNat : List Char → Nat → Nat
  | [], acc => acc
  | c :: cs, acc => digitsToNat cs (acc * 10 + (c.toNat - 48))

/-- Parse a nonempty all-digit character list as a decimal number. -/
def digitsToNat? (l : List Char) : Option Nat :=
  if l ≠ [] ∧ l.all Char.isDigit then some (digitsToNat l 0) else none

/-- `datetime.datetime.strptime(s, date_format)` for the fixed format
`%Y-%m-%d` used by `CryptoData.get_timestamp`: three dash-separated decimal
fields forming a valid calendar date; `none` models the `ValueError` raised
on any other input. -/
def strptime_Ymd (s : String) : Option (Nat × Nat × Nat) :=
  match splitDash s.data with
  | [ys, ms, ds] =>
    match digitsToNat? ys, digitsToNat? ms, digitsToNat? ds with
    | some y, some m, some d =>
      if 1 ≤ y ∧ y ≤ 9999 ∧ 1 ≤ m ∧ m ≤ 12 ∧ 1 ≤ d ∧ d ≤ daysInMonth y m then
        some (y, m, d)
      else none
    | _, _, _ => none
  | _ => none

/-- Machine-dependent environment of one invocation: the local UTC offset in
seconds (as used by `time.mktime`, which interprets a `struct_time` as local
time), and the value `int(time.mktime(datetime.datetime.utcnow().timetuple()))`
would return at invocation time. -/
structure MachineEnv where
  utcOffset : Int
  nowMktime : Int

/-- `time.mktime` applied to midnight of a civil date: local-time
interpretation, i.e. the UTC timestamp of that date's midnight minus the
machine's local UTC offset. -/
def mktime (env : MachineEnv) (y m d : Nat) : Int :=
  daysFromCivil y m d * 86400 - env.utcOffset

/-- `CryptoData.get_timestamp` (with the default `%Y-%m-%d` format): with no
date string it applies `mktime` to the current UTC time tuple; with a date
string it parses it with `strptime` and applies `mktime` to the result. -/
def get_timestamp (env : MachineEnv) (date_string : Option String) : Option Int :=
  match date_string with
  | none => some env.nowMktime
  | some s => (strptime_Ymd s).map fun t => mktime env t.1 t.2.1 t.2.2

/-- The instance attributes `CryptoData.__init__` assigns (the mutable
`self.data` is pipeline state, modeled separately in `AState`; `self.logger`
is unused by the pipeline). -/
structure Config where
  currency_pair : String
  start_timestamp : Int
  end_timestamp : Int
  period : Nat
  api : String
  destination : Option String
  url : String
deriving DecidableEq, Repr

/-- Default argument `currency_pair='USDT_BTC'` of `__init__`. -/
def default_currency_pair : String := "USDT_BTC"

/-- Default argument `start_date='2015-01-01'` of `__init__`. -/
def default_start_date : String := "2015-01-01"

/-- Default argument `end_date=None` of `__init__`. -/
def default_end_date : Option String := none

/-- Default argument `period=14400` of `__init__`. -/
def default_period : Nat := 14400

/-- Default argument `destination=None` of `__init__`. -/
def default_destination : Option String := none

/-- Default argument `api='returnChartData'` of `__init__`. -/
def default_api : String := "returnChartData"

/-- Python truthiness test `not end_date`: true for `None` and for the empty
string. -/
def isFalsyStr : Option String → Bool
  | none => true
  | some s => s == ""

/-- `CryptoData.__init__`: uppercases the currency pair, converts the start
date with `get_timestamp`, sets the end timestamp to the literal
`9999999999` when `end_date` is falsy and otherwise converts it, assigns
`self.period = 300` (ignoring the caller-supplied `period` argument), and
builds the request URL f-string from the assigned attributes. `none` models
a `ValueError` escaping from `strptime`. -/
def CryptoData_init (env : MachineEnv) (currency_pair : String) (start_date : String)
    (end_date : Option String) (period : Nat) (destination : Option String)
    (api : String) : Option Config :=
  match get_timestamp env (some start_date) with
  | none => none
  | some startTs =>
    match (if isFalsyStr end_date then some 9999999999 else get_timestamp env end_date) with
    | none => none
    | some endTs =>
      some { currency_pair := upper currency_pair
             start_timestamp := startTs
             end_timestamp := endTs
             period := 300
             api := api
             destination := destination
             url := "https://poloniex.com/public?command=" ++ api ++ "&currencyPair="
               ++ upper currency_pair ++ "&start=" ++ toString startTs ++ "&end="
               ++ toString endTs ++ "&period=" ++ toString (300 : Nat) }

/-- One record of the JSON array the API returns on success (the mutable
dataframe row is derived from it). Numeric fields are exact rationals. -/
structure RawCandle where
  date : Int
  high : Rat
  low : Rat
  open_ : Rat
  close : Rat
  volume : Rat
  quoteVolume : Rat
  weightedAverage : Rat
deriving DecidableEq, Repr

/-- Result of `json.loads(response.text)`: either a JSON object (an error
envelope, whose values are strings) or a JSON array of candle records. -/
inductive Parsed where
  | dict (entries : List (String × String))
  | arr (candles : List RawCandle)
deriving DecidableEq, Repr

/-- The two `Exception`s `parse_api_data_text` can raise, identified by the
message they carry. -/
inductive PyError where
  | invalidCurrencyPair (message : String)
  | apiError (message : String)
deriving DecidableEq, Repr

/-- The f-string message of the invalid-currency-pair exception: the pair,
fixed text, and the interpolated `AVAILABLE_CURRENCY_PAIRS` list. -/
def invalidPairMessage (pair : String) : String :=
  pair ++ " is not a valid currency pair. You must use one of: \n"
    ++ pyListRepr AVAILABLE_CURRENCY_PAIRS

/-- `CryptoData.parse_api_data_text`: if the parsed body is a dict with an
`error` key, raise (invalid-pair message when the error value is exactly
`Invalid currency pair.`, otherwise an API-error message); else return the
parsed data unchanged. -/
def parse_api_data_text (currency_pair : String) (parsed_data : Parsed) :
    Except PyError Parsed :=
  match parsed_data with
  | .dict entries =>
    match entries.lookup "error" with
    | some errVal =>
      if errVal = "Invalid currency pair." then
        .error (.invalidCurrencyPair (invalidPairMessage currency_pair))
      else
        .error (.apiError ("API Error: " ++ errVal))
    | none => .ok parsed_data
  | .arr _ => .ok parsed_data

/-- One cell of the projected dataframe. -/
inductive Cell where
  | dt (v : Datetime)
  | rat (v : Rat)
deriving DecidableEq, Repr

/-- One row of the normalized dataframe `self.data`, fields in the projected
column order. -/
structure Candle where
  datetime_utc : Datetime
  open_ : Rat
  high : Rat
  low : Rat
  close : Rat
  quoteVolume : Rat
  volume : Rat
  weightedAverage : Rat
deriving DecidableEq, Repr

/-- The projection list `cols` of `build_dataframe`. -/
def data_cols : List String :=
  ["datetime_utc", "open", "high", "low", "close", "quoteVolume", "volume",
   "weightedAverage"]

/-- The cells of a row, in the order of `data_cols`. -/
def Candle.row (c : Candle) : List Cell :=
  [.dt c.datetime_utc, .rat c.open_, .rat c.high, .rat c.low, .rat c.close,
   .rat c.quoteVolume, .rat c.volume, .rat c.weightedAverage]

/-- Columns of `pd.DataFrame(candles)` for a list of candle records: the
record keys — and no columns at all when the list is empty. -/
def frameColumns (candles : List RawCandle) : List String :=
  if candles.isEmpty then []
  else ["date", "high", "low", "open", "close", "volume", "quoteVolume",
        "weightedAverage"]

/-- Exceptions pandas raises inside `build_dataframe`: column lookup on a
frame lacking that column (`KeyError`), or frame construction from a
non-record payload (`ValueError`). -/
inductive BuildError where
  | keyError (key : String)
  | valueError
deriving DecidableEq, Repr

/-- The comparison `sort_values('datetime')` sorts by: order of the derived
datetime values. -/
def rawLe (a b : RawCandle) : Prop :=
  (utcfromtimestamp a.date).key ≤ (utcfromtimestamp b.date).key

instance : DecidableRel rawLe := fun a b => Int.decLe _ _

instance : IsTotal RawCandle rawLe := ⟨fun a b => Int.le_total _ _⟩

instance : IsTrans RawCandle rawLe := ⟨fun _ _ _ => Int.le_trans⟩

/-- The projected row built for one raw record: the derived datetime column
(duplicated as `datetime_utc`) followed by the passed-through numeric
columns in the order of `data_cols`. -/
def toCandle (r : RawCandle) : Candle :=
  { datetime_utc := utcfromtimestamp r.date
    open_ := r.open_
    high := r.high
    low := r.low
    close := r.close
    quoteVolume := r.quoteVolume
    volume := r.volume
    weightedAverage := r.weightedAverage }

/-- `CryptoData.build_dataframe`: frame the parsed payload, derive the
`datetime` column with `utcfromtimestamp` (a `KeyError` if the frame has no
`date` column, which happens exactly when the record list is empty), sort by
it, duplicate it as `datetime_utc`, and project to `data_cols`. -/
def build_dataframe (parsed : Parsed) : Except BuildError (List Candle) :=
  match parsed with
  | .dict _ => .error .valueError
  | .arr candles =>
    if "date" ∈ frameColumns candles then
      .ok ((List.insertionSort rawLe candles).map toCandle)
    else
      .error (.keyError "date")

/-- The filesystem: an association of paths to current file contents. -/
abbrev FS := List (String × String)

/-- Write a whole file: `to_csv` opens its path argument in mode `w`,
truncating any previous contents. -/
def writeFile (fs : FS) (path content : String) : FS :=
  (path, content) :: fs.filter (fun e => e.1 != path)

/-- Current contents of a file, if present. -/
def readFile (fs : FS) (path : String) : Option String := fs.lookup path

/-- Textual rendering of one dataframe cell for CSV output. -/
def Cell.render : Cell → String
  | .dt v => toString v.year ++ "-" ++ toString v.month ++ "-" ++ toString v.day
      ++ " " ++ toString v.hour ++ ":" ++ toString v.minute ++ ":" ++ toString v.second
  | .rat v => toString v

/-- The delimited text `to_csv(..., index=False)` renders: the header row of
`data_cols` followed by one row per candle. -/
def to_csv_string (data : List Candle) : String :=
  String.intercalate "\n"
    (String.intercalate "," data_cols
      :: data.map (fun c => String.intercalate "," (c.row.map Cell.render))) ++ "\n"

/-- Exceptions the pipeline stages can raise, as seen by the retry wrapper. -/
inductive PipeError where
  | network
  | parseFailure (e : PyError)
  | buildFailure (e : BuildError)
  | ioError
deriving DecidableEq, Repr

/-- `DataFrame.to_csv(path_or_buf, index=False)`: with a path it
truncate-writes the rendered CSV to the filesystem and returns `None`; with
`None` it returns the CSV text as an in-memory string and writes nothing.
`writeOk` models whether the operating-system write succeeds (an `IOError`
otherwise). -/
def to_csv (dest : Option String) (data : List Candle) (fs : FS) (writeOk : Bool) :
    Except PipeError (FS × Option String) :=
  match dest with
  | none => .ok (fs, some (to_csv_string data))
  | some path =>
    if writeOk then .ok (writeFile fs path (to_csv_string data), none)
    else .error .ioError

/-- `CryptoData.save_data`: calls `to_csv(self.destination, index=False)` and
discards its return value (the in-memory CSV string, when the destination is
`None`). -/
def save_data (dest : Option String) (data : List Candle) (fs : FS) (writeOk : Bool) :
    Except PipeError FS :=
  (to_csv dest data fs writeOk).map (fun r => r.1)

/-- Invocation-external inputs of `run`: the parsed body the network returns
on each attempt (`none` is a `requests` connection failure) and whether the
filesystem write succeeds on each attempt. -/
structure PipeEnv where
  fetch : Nat → Option Parsed
  writeOk : Nat → Bool

/-- What one successful call of `run` returns: `self` (carrying the built
data) when saving, or the in-memory dataframe. -/
inductive RunResult where
  | selfResult (data : List Candle)
  | dataResult (data : List Candle)
deriving DecidableEq, Repr

/-- The mutable attribute `self.data`, which persists across retried
attempts because the decorator re-invokes the same bound method. -/
structure AState where
  data : Option (List Candle)
deriving DecidableEq, Repr

instance {E A : Type} [DecidableEq E] [DecidableEq A] : DecidableEq (Except E A)
  | .ok a, .ok b =>
    if h : a = b then .isTrue (by rw [h]) else .isFalse (by intro hc; cases hc; exact h rfl)
  | .ok _, .error _ => .isFalse (by intro hc; cases hc)
  | .error _, .ok _ => .isFalse (by intro hc; cases hc)
  | .error e, .error f =>
    if h : e = f then .isTrue (by rw [h]) else .isFalse (by intro hc; cases hc; exact h rfl)

/-- Outcome of one attempt of the body of `run`: the state and filesystem
after the attempt, whether the attempt performed the HTTP fetch, and its
result or exception. -/
structure AttemptOut where
  st : AState
  fs : FS
  fetched : Bool
  res : Except PipeError RunResult
deriving DecidableEq, Repr

/-- The tail of `run` after the `if self.data is None` block: when `save` is
truthy, call `save_data` and return `self`; otherwise return `self.data`. -/
def finishAttempt (cfg : Config) (env : PipeEnv) (save : Bool) (i : Nat)
    (st : AState) (fs : FS) (fetched : Bool) : AttemptOut :=
  if save then
    match save_data cfg.destination (st.data.getD []) fs (env.writeOk i) with
    | .ok fs2 => ⟨st, fs2, fetched, .ok (.selfResult (st.data.getD []))⟩
    | .error e => ⟨st, fs, fetched, .error e⟩
  else ⟨st, fs, fetched, .ok (.dataResult (st.data.getD []))⟩

/-- One attempt of the body of `CryptoData.run` (attempt number `i`): only
when `self.data` is still `None` does it fetch, parse and build; any raised
exception propagates with the state mutations made so far. -/
def run_once (cfg : Config) (env : PipeEnv) (save : Bool) (i : Nat)
    (st : AState) (fs : FS) : AttemptOut :=
  match st.data with
  | some _ => finishAttempt cfg env save i st fs false
  | none =>
    match env.fetch i with
    | none => ⟨st, fs, true, .error .network⟩
    | some body =>
      match parse_api_data_text cfg.currency_pair body with
      | .error e => ⟨st, fs, true, .error (.parseFailure e)⟩
      | .ok parsed =>
        match build_dataframe parsed with
        | .error e => ⟨st, fs, true, .error (.buildFailure e)⟩
        | .ok df => finishAttempt cfg env save i ⟨some df⟩ fs true

/-- Aggregate outcome of a retry-wrapped `run` call: final result, final
filesystem, how many attempts performed the HTTP fetch, and how many
attempts were made in total. -/
structure RunSummary where
  res : Except PipeError RunResult
  fs : FS
  fetchCount : Nat
  attempts : Nat
deriving DecidableEq, Repr

/-- The decorator argument `stop_max_attempt_number=7`. -/
def stop_max_attempt_number : Nat := 7

/-- The decorator argument `wait_random_min=1000` (milliseconds). -/
def wait_random_min : Nat := 1000

/-- The decorator argument `wait_random_max=2000` (milliseconds). -/
def wait_random_max : Nat := 2000

/-- The decorator's randomized backoff before a retry:
`random.randint(wait_random_min, wait_random_max)` milliseconds, modeled on
an arbitrary seed. -/
def wait_random (seed : Nat) : Nat :=
  wait_random_min + seed % (wait_random_max - wait_random_min + 1)

/-- The retry loop of the `@retry` decorator around `run`, threading the
mutable `self.data` and the filesystem across attempts: run the attempt
body; on success stop; on an exception retry while attempts remain,
re-raising the last exception once `stop_max_attempt_number` attempts have
been made. -/
def retry_pipeline (cfg : Config) (env : PipeEnv) (save : Bool) :
    Nat → Nat → AState → FS → Nat → RunSummary
  | 0, i, _, fs, fc => ⟨.error .network, fs, fc, i - 1⟩
  | remaining + 1, i, st, fs, fc =>
    let out := run_once cfg env save i st fs
    let fc2 := if out.fetched then fc + 1 else fc
    match out.res with
    | .ok v => ⟨.ok v, out.fs, fc2, i⟩
    | .error e =>
      if remaining = 0 then ⟨.error e, out.fs, fc2, i⟩
      else retry_pipeline cfg env save remaining (i + 1) out.st out.fs fc2

/-- `CryptoData.run(save)` under its `@retry` decorator, starting from a
fresh `self.data = None` and a given filesystem. -/
def CryptoData_run (cfg : Config) (env : PipeEnv) (save : Bool) (fs : FS) : RunSummary :=
  retry_pipeline cfg env save stop_max_attempt_number 1 ⟨none⟩ fs 0

/-- The `@retry` decorator applied to an arbitrary attempt-indexed operation
(`fuel` failures may still be discarded; at `fuel = 0` the final attempt's
outcome — success or the last exception — propagates to the caller). -/
def retryAux {E A : Type} (op : Nat → Except E A) : Nat → Nat → Except E A × Nat
  | 0, i => (op i, i)
  | fuel + 1, i =>
    match op i with
    | .ok a => (.ok a, i)
    | .error _ => retryAux op fuel (i + 1)

/-- A call of an operation wrapped with
`@retry(stop_max_attempt_number=7, ...)`: up to 7 total attempts, returning
the result and the number of attempts made. -/
def retry_call {E A : Type} (op : Nat → Except E A) : Except E A × Nat :=
  retryAux op (stop_max_attempt_number - 1) 1

/-- Test fixture: one raw candle (date `1405699200`, the docstring sample). -/
def sampleRaw : RawCandle := ⟨1405699200, 3, 1, 2, 4, 5, 6, 7⟩

/-- Test fixture: a raw candle one day after `sampleRaw`. -/
def sampleRaw2 : RawCandle := ⟨1405785600, 3, 1, 2, 4, 5, 6, 7⟩

/-- Shape of every successful `__init__`: the start and end timestamps come
from `get_timestamp` (or the falsy-end sentinel), and the remaining
attributes and the URL are built exactly as in the source. -/
theorem CryptoData_init_some (env : MachineEnv) (currency_pair start_date : String)
    (end_date : Option String) (period : Nat) (destination : Option String)
    (api : String) (cfg : Config)
    (h : CryptoData_init env currency_pair start_date end_date period destination api
      = some cfg) :
    ∃ startTs endTs,
      get_timestamp env (some start_date) = some startTs
      ∧ (if isFalsyStr end_date then some 9999999999 else get_timestamp env end_date)
        = some endTs
      ∧ cfg = { currency_pair := upper currency_pair
                start_timestamp := startTs
                end_timestamp := endTs
                period := 300
                api := api
                destination := destination
                url := "https://poloniex.com/public?command=" ++ api ++ "&currencyPair="
                  ++ upper currency_pair ++ "&start=" ++ toString startTs ++ "&end="
                  ++ toString endTs ++ "&period=" ++ toString (300 : Nat) } := by
  unfold CryptoData_init at h
  split at h
  · exact absurd h (by simp)
  · rename_i startTs hs
    split at h
    · exact absurd h (by simp)
    · rename_i endTs he
      exact ⟨startTs, endTs, hs, he, (Option.some.inj h).symm⟩

/-- C2: for every caller-supplied period argument (in particular each of
300, 900, 1800, 7200, 14400, 86400), `__init__` sets the configuration's
`period` to the hard-coded 300 and the URL's period query parameter to
`&period=300`, and the whole construction is independent of the
caller-supplied period value. -/
theorem init_period_hardcoded (env : MachineEnv) (currency_pair start_date : String)
    (end_date : Option String) (period : Nat) (destination : Option String)
    (api : String) (cfg : Config)
    (h : CryptoData_init env currency_pair start_date end_date period destination api
      = some cfg) :
    cfg.period = 300
    ∧ (∃ pre, cfg.url = pre ++ "&period=" ++ "300")
    ∧ ∀ period2 : Nat,
        CryptoData_init env currency_pair start_date end_date period destination api
          = CryptoData_init env currency_pair start_date end_date period2 destination api := by
  obtain ⟨startTs, endTs, hs, he, rfl⟩ :=
    CryptoData_init_some env currency_pair start_date end_date period destination api cfg h
  refine ⟨rfl, ⟨"https://poloniex.com/public?command=" ++ api ++ "&currencyPair="
    ++ upper currency_pair ++ "&start=" ++ toString startTs ++ "&end="
    ++ toString endTs, rfl⟩, fun period2 => rfl⟩

/-- C2 witness: the construction with the default arguments (on a UTC
machine), whose period attribute is 300 even though the caller passed
14400. -/
theorem init_period_hardcoded_witness :
    ∃ cfg, CryptoData_init ⟨0, 0⟩ default_currency_pair default_start_date default_end_date
        default_period default_destination default_api = some cfg
      ∧ cfg.period = 300 ∧ ∃ pre, cfg.url = pre ++ "&period=" ++ "300" := by
  refine ⟨{ currency_pair := "USDT_BTC", start_timestamp := 1420070400,
            end_timestamp := 9999999999, period := 300, api := "returnChartData",
            destination := none,
            url := "https://poloniex.com/public?command=returnChartData&currencyPair=USDT_BTC&start=1420070400&end=9999999999&period=300" },
    by decide, ?_, ?_⟩
  · exact (init_period_hardcoded ⟨0, 0⟩ default_currency_pair default_start_date
      default_end_date default_period default_destination default_api _ (by decide)).1
  · exact (init_period_hardcoded ⟨0, 0⟩ default_currency_pair default_start_date
      default_end_date default_period default_destination default_api _ (by decide)).2.1

/-- C3: a parsed dict body with an `error` key always raises — with the
invalid-pair message (which ends with the rendered complete
`AVAILABLE_CURRENCY_PAIRS` list) when the error value is exactly
`Invalid currency pair.`, and with an API-error message carrying the API's
error value otherwise — while a parsed array body is returned unchanged. -/
theorem parse_response_errors (currency_pair : String) :
    (∀ entries v, entries.lookup "error" = some v →
      (v = "Invalid currency pair." →
        parse_api_data_text currency_pair (.dict entries)
          = .error (.invalidCurrencyPair (invalidPairMessage currency_pair))
        ∧ ∃ pre, invalidPairMessage currency_pair
            = pre ++ pyListRepr AVAILABLE_CURRENCY_PAIRS)
      ∧ (v ≠ "Invalid currency pair." →
        parse_api_data_text currency_pair (.dict entries)
          = .error (.apiError ("API Error: " ++ v))
        ∧ ∃ pre, "API Error: " ++ v = pre ++ v))
    ∧ ∀ candles, parse_api_data_text currency_pair (.arr candles) = .ok (.arr candles) := by
  refine ⟨fun entries v hv => ⟨fun heq => ⟨?_, ?_⟩, fun hne => ⟨?_, ?_⟩⟩,
    fun candles => rfl⟩
  · simp [parse_api_data_text, hv, heq]
  · exact ⟨currency_pair ++ " is not a valid currency pair. You must use one of: \n", rfl⟩
  · simp [parse_api_data_text, hv, hne]
  · exact ⟨"API Error: ", rfl⟩

/-- C3 witness: the two error envelopes of the spec examples and a sample
array body. -/
theorem parse_response_errors_witness :
    parse_api_data_text "ABC" (.dict [("error", "Invalid currency pair.")])
      = .error (.invalidCurrencyPair (invalidPairMessage "ABC"))
    ∧ parse_api_data_text "ABC" (.dict [("error", "something else")])
      = .error (.apiError ("API Error: " ++ "something else"))
    ∧ parse_api_data_text "ABC" (.arr [sampleRaw]) = .ok (.arr [sampleRaw]) :=
  ⟨(((parse_response_errors "ABC").1 [("error", "Invalid currency pair.")]
      "Invalid currency pair." rfl).1 rfl).1,
   (((parse_response_errors "ABC").1 [("error", "something else")]
      "something else" rfl).2 (by decide)).1,
   (parse_response_errors "ABC").2 [sampleRaw]⟩

/-- C9: the empty array response frames to a table with no columns, so the
`date` column lookup raises a `KeyError` — `build_dataframe` fails rather
than returning an empty series. -/
theorem build_dataframe_empty :
    frameColumns [] = [] ∧ build_dataframe (.arr []) = .error (.keyError "date") :=
  ⟨rfl, by decide⟩

/-- C8: `build_dataframe` (the normalization step) is deterministic in its
input: equal raw-candle sequences produce identical results. -/
theorem build_dataframe_deterministic (l1 l2 : List RawCandle) (h : l1 = l2) :
    build_dataframe (.arr l1) = build_dataframe (.arr l2) := by rw [h]

/-- C8 witness: the sample input, normalized twice. -/
theorem build_dataframe_deterministic_witness :
    build_dataframe (.arr [sampleRaw2, sampleRaw])
      = build_dataframe (.arr [sampleRaw2, sampleRaw]) :=
  build_dataframe_deterministic [sampleRaw2, sampleRaw] [sampleRaw2, sampleRaw] rfl

/-- C4 (counterexample): on the empty raw-candle sequence `build_dataframe`
returns no series at all (it raises), so the claim quantified over every
sequence fails at the empty input. -/
theorem build_dataframe_sorted_counterexample :
    ¬ ∃ out, build_dataframe (.arr []) = .ok out := by
  rintro ⟨out, h⟩
  rw [show build_dataframe (.arr []) = .error (.keyError "date") from by decide] at h
  cases h

/-- C4 (amended): for every nonempty raw-candle sequence — including
out-of-order and reverse-sorted ones — `build_dataframe` returns a series
sorted non-decreasing by the datetime derived from each record's `date`
field, whose rows are the sorted records projected to the fixed column
order datetime_utc, open, high, low, close, quoteVolume, volume,
weightedAverage. -/
theorem build_dataframe_sorted (l : List RawCandle) (h : l ≠ []) :
    ∃ out, build_dataframe (.arr l) = .ok out
      ∧ List.Pairwise (fun a b : Candle => a.datetime_utc.key ≤ b.datetime_utc.key) out
      ∧ out.map Candle.row = (List.insertionSort rawLe l).map (fun r =>
          [Cell.dt (utcfromtimestamp r.date), Cell.rat r.open_, Cell.rat r.high,
           Cell.rat r.low, Cell.rat r.close, Cell.rat r.quoteVolume, Cell.rat r.volume,
           Cell.rat r.weightedAverage]) := by
  refine ⟨(List.insertionSort rawLe l).map toCandle, ?_, ?_, ?_⟩
  · cases l with
    | nil => exact absurd rfl h
    | cons a as => simp [build_dataframe, frameColumns]
  · have hs := List.sorted_insertionSort rawLe l
    rw [List.pairwise_map]
    exact hs.imp (fun hab => hab)
  · rw [List.map_map]
    rfl

/-- C4 witness: a reverse-sorted two-element input. -/
theorem build_dataframe_sorted_witness :
    ∃ out, build_dataframe (.arr [sampleRaw2, sampleRaw]) = .ok out
      ∧ List.Pairwise (fun a b : Candle => a.datetime_utc.key ≤ b.datetime_utc.key) out
      ∧ out.map Candle.row = (List.insertionSort rawLe [sampleRaw2, sampleRaw]).map (fun r =>
          [Cell.dt (utcfromtimestamp r.date), Cell.rat r.open_, Cell.rat r.high,
           Cell.rat r.low, Cell.rat r.close, Cell.rat r.quoteVolume, Cell.rat r.volume,
           Cell.rat r.weightedAverage]) :=
  build_dataframe_sorted [sampleRaw2, sampleRaw] (by decide)

theorem retryAux_ok {E A : Type} (op : Nat → Except E A) (fuel i : Nat) (a : A)
    (h : op i = .ok a) : retryAux op (fuel + 1) i = (.ok a, i) := by
  simp [retryAux, h]

theorem retryAux_err {E A : Type} (op : Nat → Except E A) (fuel i : Nat) (e : E)
    (h : op i = .error e) : retryAux op (fuel + 1) i = retryAux op fuel (i + 1) := by
  simp [retryAux, h]

theorem retryAux_attempts_le {E A : Type} (op : Nat → Except E A) :
    ∀ fuel i, (retryAux op fuel i).2 ≤ i + fuel := by
  intro fuel
  induction fuel with
  | zero => intro i; simp [retryAux]
  | succ f ih =>
    intro i
    cases h : op i with
    | ok a => rw [retryAux_ok op f i a h]; omega
    | error e => rw [retryAux_err op f i e h]; have := ih (i + 1); omega

/-- C5: the retry wrapper makes at most `stop_max_attempt_number = 7` total
attempts with a `randint(1000, 2000)`-millisecond delay drawn before each
retry; an operation failing on the first 6 attempts and succeeding on the
7th yields the success after exactly 7 attempts, and an always-failing
operation yields its 7th (last) failure after exactly 7 attempts. -/
theorem retry_call_spec :
    (∀ (E A : Type) (op : Nat → Except E A) (a : A),
      (∀ i, 1 ≤ i → i ≤ 6 → ∃ e, op i = .error e) → op 7 = .ok a →
      retry_call op = (.ok a, 7))
    ∧ (∀ (E A : Type) (op : Nat → Except E A),
      (∀ i, ∃ e, op i = .error e) →
      ∃ e, op 7 = .error e ∧ retry_call op = (.error e, 7))
    ∧ (∀ (E A : Type) (op : Nat → Except E A),
      (retry_call op).2 ≤ stop_max_attempt_number)
    ∧ (∀ seed, wait_random_min ≤ wait_random seed ∧ wait_random seed ≤ wait_random_max)
    ∧ stop_max_attempt_number = 7 ∧ wait_random_min = 1000 ∧ wait_random_max = 2000 := by
  refine ⟨?_, ?_, ?_, ?_, rfl, rfl, rfl⟩
  · intro E A op a h h7
    obtain ⟨e1, he1⟩ := h 1 (by omega) (by omega)
    obtain ⟨e2, he2⟩ := h 2 (by omega) (by omega)
    obtain ⟨e3, he3⟩ := h 3 (by omega) (by omega)
    obtain ⟨e4, he4⟩ := h 4 (by omega) (by omega)
    obtain ⟨e5, he5⟩ := h 5 (by omega) (by omega)
    obtain ⟨e6, he6⟩ := h 6 (by omega) (by omega)
    show retryAux op 6 1 = (.ok a, 7)
    rw [show (6 : Nat) = 5 + 1 from rfl, retryAux_err op 5 1 e1 he1]
    rw [show (5 : Nat) = 4 + 1 from rfl, retryAux_err op 4 2 e2 he2]
    rw [show (4 : Nat) = 3 + 1 from rfl, retryAux_err op 3 3 e3 he3]
    rw [show (3 : Nat) = 2 + 1 from rfl, retryAux_err op 2 4 e4 he4]
    rw [show (2 : Nat) = 1 + 1 from rfl, retryAux_err op 1 5 e5 he5]
    rw [show (1 : Nat) = 0 + 1 from rfl, retryAux_err op 0 6 e6 he6]
    show (op 7, 7) = (.ok a, 7)
    rw [h7]
  · intro E A op h
    obtain ⟨e1, he1⟩ := h 1
    obtain ⟨e2, he2⟩ := h 2
    obtain ⟨e3, he3⟩ := h 3
    obtain ⟨e4, he4⟩ := h 4
    obtain ⟨e5, he5⟩ := h 5
    obtain ⟨e6, he6⟩ := h 6
    obtain ⟨e7, he7⟩ := h 7
    refine ⟨e7, he7, ?_⟩
    show retryAux op 6 1 = (.error e7, 7)
    rw [show (6 : Nat) = 5 + 1 from rfl, retryAux_err op 5 1 e1 he1]
    rw [show (5 : Nat) = 4 + 1 from rfl, retryAux_err op 4 2 e2 he2]
    rw [show (4 : Nat) = 3 + 1 from rfl, retryAux_err op 3 3 e3 he3]
    rw [show (3 : Nat) = 2 + 1 from rfl, retryAux_err op 2 4 e4 he4]
    rw [show (2 : Nat) = 1 + 1 from rfl, retryAux_err op 1 5 e5 he5]
    rw [show (1 : Nat) = 0 + 1 from rfl, retryAux_err op 0 6 e6 he6]
    show (op 7, 7) = (.error e7, 7)
    rw [he7]
  · intro E A op
    have := retryAux_attempts_le op 6 1
    show (retryAux op 6 1).2 ≤ 7
    omega
  · intro seed
    simp only [wait_random, wait_random_min, wait_random_max]
    omega

/-- C5 witness: an operation failing exactly on attempts 1 through 6 and
succeeding on attempt 7. -/
theorem retry_call_spec_witness :
    retry_call (fun i => if i < 7 then Except.error "boom" else Except.ok 42) = (.ok 42, 7) :=
  retry_call_spec.1 String Nat (fun i => if i < 7 then .error "boom" else .ok 42) 42
    (fun i h1 h6 => ⟨"boom", by
      show (if i < 7 then (Except.error "boom" : Except String Nat) else Except.ok 42)
        = Except.error "boom"
      rw [if_pos (show i < 7 by omega)]⟩)
    (by
      show (if 7 < 7 then (Except.error "boom" : Except String Nat) else Except.ok 42)
        = Except.ok 42
      rw [if_neg (show ¬ (7 < 7) by omega)])

/-- C6 (counterexample): on a machine one hour east of UTC, the constructed
start timestamp differs from the one constructed on a UTC machine, and from
midnight UTC of the start date: the conversion is not timezone-independent. -/
theorem init_start_tz_counterexample :
    (CryptoData_init ⟨3600, 0⟩ "USDT_BTC" "2015-01-01" none 14400 none
        "returnChartData").map Config.start_timestamp
      ≠ (CryptoData_init ⟨0, 0⟩ "USDT_BTC" "2015-01-01" none 14400 none
        "returnChartData").map Config.start_timestamp
    ∧ (CryptoData_init ⟨3600, 0⟩ "USDT_BTC" "2015-01-01" none 14400 none
        "returnChartData").map Config.start_timestamp
      ≠ some (daysFromCivil 2015 1 1 * 86400) := by
  constructor <;> decide

/-- C6 (amended): `__init__` converts the start date with `time.mktime`
local-time semantics: the timestamp is midnight UTC of the calendar date
minus the machine's UTC offset, so it depends on the local time zone and
coincides with midnight UTC exactly when that offset is zero. -/
theorem init_start_timestamp_local (env : MachineEnv) (currency_pair start_date : String)
    (end_date : Option String) (period : Nat) (destination : Option String) (api : String)
    (y m d : Nat) (cfg : Config)
    (hs : strptime_Ymd start_date = some (y, m, d))
    (h : CryptoData_init env currency_pair start_date end_date period destination api
      = some cfg) :
    cfg.start_timestamp = daysFromCivil y m d * 86400 - env.utcOffset
    ∧ (env.utcOffset = 0 → cfg.start_timestamp = daysFromCivil y m d * 86400) := by
  obtain ⟨startTs, endTs, hgt, he, rfl⟩ := CryptoData_init_some env currency_pair
    start_date end_date period destination api cfg h
  have hst : startTs = mktime env y m d := by
    simp [get_timestamp, hs] at hgt
    exact hgt.symm
  subst hst
  refine ⟨rfl, fun h0 => ?_⟩
  show mktime env y m d = _
  rw [mktime, h0, sub_zero]

/-- C6 witness: the default start date constructed at offset +3600. -/
theorem init_start_timestamp_local_witness :
    ∃ cfg, CryptoData_init ⟨3600, 0⟩ "USDT_BTC" "2015-01-01" none 14400 none
        "returnChartData" = some cfg
      ∧ cfg.start_timestamp = daysFromCivil 2015 1 1 * 86400 - 3600 := by
  refine ⟨{ currency_pair := "USDT_BTC", start_timestamp := 1420066800,
            end_timestamp := 9999999999, period := 300, api := "returnChartData",
            destination := none,
            url := "https://poloniex.com/public?command=returnChartData&currencyPair=USDT_BTC&start=1420066800&end=9999999999&period=300" },
    by decide, ?_⟩
  exact (init_start_timestamp_local ⟨3600, 0⟩ "USDT_BTC" "2015-01-01" none 14400 none
    "returnChartData" 2015 1 1 _ (by decide) (by decide)).1

/-- C7: with an absent end date `__init__` sets the end timestamp to the
far-future sentinel 9999999999 (a date in year 2286 — a constant, not the
clock value `nowMktime`), while a supplied parseable end date is converted
with the same `mktime` calendar conversion. -/
theorem init_end_timestamp (env : MachineEnv) (currency_pair start_date : String)
    (period : Nat) (destination : Option String) (api : String) :
    (∀ cfg, CryptoData_init env currency_pair start_date none period destination api
        = some cfg → cfg.end_timestamp = 9999999999)
    ∧ (utcfromtimestamp 9999999999).year = 2286
    ∧ (∀ s y m d cfg, strptime_Ymd s = some (y, m, d) →
        CryptoData_init env currency_pair start_date (some s) period destination api
          = some cfg →
        cfg.end_timestamp = mktime env y m d) := by
  refine ⟨?_, by decide, ?_⟩
  · intro cfg h
    obtain ⟨startTs, endTs, hgt, he, rfl⟩ := CryptoData_init_some env currency_pair
      start_date none period destination api cfg h
    simp [isFalsyStr] at he
    exact he.symm
  · intro s y m d cfg hs h
    obtain ⟨startTs, endTs, hgt, he, rfl⟩ := CryptoData_init_some env currency_pair
      start_date (some s) period destination api cfg h
    have hne : s ≠ "" := by
      intro h0
      rw [h0] at hs
      rw [show strptime_Ymd "" = none from rfl] at hs
      cases hs
    have hf : isFalsyStr (some s) = false := by
      simp [isFalsyStr, hne]
    rw [hf] at he
    simp only [if_neg Bool.false_ne_true] at he
    simp [get_timestamp, hs] at he
    exact he.symm

/-- C7 witness: the default construction (no end date) on a UTC machine. -/
theorem init_end_timestamp_witness :
    ∃ cfg, CryptoData_init ⟨0, 0⟩ default_currency_pair default_start_date none
        default_period default_destination default_api = some cfg
      ∧ cfg.end_timestamp = 9999999999 := by
  refine ⟨{ currency_pair := "USDT_BTC", start_timestamp := 1420070400,
            end_timestamp := 9999999999, period := 300, api := "returnChartData",
            destination := none,
            url := "https://poloniex.com/public?command=returnChartData&currencyPair=USDT_BTC&start=1420070400&end=9999999999&period=300" },
    by decide, ?_⟩
  exact (init_end_timestamp ⟨0, 0⟩ default_currency_pair default_start_date
    default_period default_destination default_api).1 _ (by decide)

theorem finishAttempt_st (cfg : Config) (env : PipeEnv) (save : Bool) (i : Nat)
    (st : AState) (fs : FS) (b : Bool) :
    (finishAttempt cfg env save i st fs b).st = st := by
  unfold finishAttempt
  split
  · split <;> rfl
  · rfl

theorem finishAttempt_fetched (cfg : Config) (env : PipeEnv) (save : Bool) (i : Nat)
    (st : AState) (fs : FS) (b : Bool) :
    (finishAttempt cfg env save i st fs b).fetched = b := by
  unfold finishAttempt
  split
  · split <;> rfl
  · rfl

/-- Once `self.data` is cached, no later attempt performs a fetch. -/
theorem retry_pipeline_cached (cfg : Config) (env : PipeEnv) (save : Bool) :
    ∀ (r i : Nat) (d : List Candle) (fs : FS) (fc : Nat),
      (retry_pipeline cfg env save r i ⟨some d⟩ fs fc).fetchCount = fc := by
  intro r
  induction r with
  | zero => intro i d fs fc; rfl
  | succ r ih =>
    intro i d fs fc
    simp only [retry_pipeline]
    rw [show run_once cfg env save i ⟨some d⟩ fs
        = finishAttempt cfg env save i ⟨some d⟩ fs false from rfl]
    rcases hfa : finishAttempt cfg env save i ⟨some d⟩ fs false with ⟨st', fs', fetched', res'⟩
    have h1 : st' = ⟨some d⟩ := by
      have hh := finishAttempt_st cfg env save i ⟨some d⟩ fs false
      rw [hfa] at hh
      exact hh
    have h2 : fetched' = false := by
      have hh := finishAttempt_fetched cfg env save i ⟨some d⟩ fs false
      rw [hfa] at hh
      exact hh
    subst h1
    subst h2
    cases res' with
    | ok v => rfl
    | error e =>
      by_cases hr : r = 0
      · subst hr
        rfl
      · show (if r = 0 then _ else retry_pipeline cfg env save r (i + 1) ⟨some d⟩ fs' fc).fetchCount = fc
        rw [if_neg hr]
        exact ih (i + 1) d fs' fc

/-- A first attempt with empty state, a healthy fetch and a nonempty array
body always reaches the save step with the built dataframe cached. -/
theorem run_once_fresh_ok (cfg : Config) (env : PipeEnv) (save : Bool) (i : Nat)
    (fs : FS) (l : List RawCandle) (hf : env.fetch i = some (.arr l)) (hl : l ≠ []) :
    run_once cfg env save i ⟨none⟩ fs
      = finishAttempt cfg env save i ⟨some ((List.insertionSort rawLe l).map toCandle)⟩ fs
          true := by
  cases l with
  | nil => exact absurd rfl hl
  | cons a as =>
    simp only [run_once, hf, parse_api_data_text]
    rw [show build_dataframe (.arr (a :: as))
        = .ok ((List.insertionSort rawLe (a :: as)).map toCandle) from by
      simp [build_dataframe, frameColumns]]

theorem finishAttempt_dest_none (cfg : Config) (env : PipeEnv) (i : Nat)
    (st : AState) (fs : FS) (b : Bool) (hdest : cfg.destination = none) :
    finishAttempt cfg env true i st fs b
      = ⟨st, fs, b, .ok (.selfResult (st.data.getD []))⟩ := by
  simp [finishAttempt, save_data, to_csv, hdest, Except.map]

theorem finishAttempt_dest_some_ok (cfg : Config) (env : PipeEnv) (i : Nat)
    (st : AState) (fs : FS) (b : Bool) (p : String) (hdest : cfg.destination = some p)
    (hok : env.writeOk i = true) :
    finishAttempt cfg env true i st fs b
      = ⟨st, writeFile fs p (to_csv_string (st.data.getD [])), b,
          .ok (.selfResult (st.data.getD []))⟩ := by
  simp [finishAttempt, save_data, to_csv, hdest, hok, Except.map]

theorem finishAttempt_dest_some_fail (cfg : Config) (env : PipeEnv) (i : Nat)
    (st : AState) (fs : FS) (b : Bool) (p : String) (hdest : cfg.destination = some p)
    (hfail : env.writeOk i = false) :
    finishAttempt cfg env true i st fs b = ⟨st, fs, b, .error .ioError⟩ := by
  simp [finishAttempt, save_data, to_csv, hdest, hfail, Except.map]

/-- Test fixture: a config whose destination is a concrete path. -/
def c1cfg : Config :=
  { currency_pair := "USDT_BTC", start_timestamp := 1420070400,
    end_timestamp := 9999999999, period := 300, api := "returnChartData",
    destination := some "out.csv",
    url := "https://poloniex.com/public?command=returnChartData&currencyPair=USDT_BTC&start=1420070400&end=9999999999&period=300" }

/-- Test fixture: a network that always returns one candle, and a
filesystem write that fails only on the first attempt. -/
def c1env : PipeEnv := ⟨fun _ => some (.arr [sampleRaw]), fun i => i != 1⟩

/-- C1 (counterexample): with a healthy network and a save failure on the
first attempt only, the run succeeds on the second attempt — so a retry
happened — yet the HTTP fetch was performed exactly once: the retried
attempt did not restart from the network call. -/
theorem run_retry_counterexample :
    (CryptoData_run c1cfg c1env true []).attempts = 2
    ∧ (CryptoData_run c1cfg c1env true []).fetchCount = 1
    ∧ (CryptoData_run c1cfg c1env true []).res
      = .ok (.selfResult [toCandle sampleRaw]) := by
  refine ⟨by decide, by decide, by decide⟩

/-- C1 (amended): a failed attempt restarts from the network call only
while `self.data` is still `None` (the failure hit fetch, parse or
normalize); once normalization has stored `self.data`, retried attempts —
e.g. after a save failure — skip fetch/parse/normalize and redo only the
save (one single fetch for the whole run, whatever the pattern of save
failures); and repeated persistence to the same path fully overwrites the
prior write rather than appending. -/
theorem run_retry_refetch_policy :
    (∀ (cfg : Config) (wOk : Nat → Bool) (fs : FS) (l : List RawCandle), l ≠ [] →
      (CryptoData_run cfg ⟨fun _ => some (.arr l), wOk⟩ true fs).fetchCount = 1)
    ∧ (∀ (cfg : Config) (wOk : Nat → Bool) (fs : FS),
      CryptoData_run cfg ⟨fun _ => none, wOk⟩ true fs
        = ⟨.error .network, fs, 7, 7⟩)
    ∧ (∀ (path : String) (fs : FS) (d d2 : List Candle) (fs2 fs3 : FS),
      save_data (some path) d fs true = .ok fs2 →
      save_data (some path) d2 fs2 true = .ok fs3 →
      readFile fs3 path = some (to_csv_string d2)) := by
  refine ⟨?_, ?_, ?_⟩
  · intro cfg wOk fs l hl
    show (retry_pipeline cfg ⟨fun _ => some (.arr l), wOk⟩ true (6 + 1) 1
      ⟨none⟩ fs 0).fetchCount = 1
    simp only [retry_pipeline]
    rw [run_once_fresh_ok cfg ⟨fun _ => some (.arr l), wOk⟩ true 1 fs l rfl hl]
    rcases hdest : cfg.destination with _ | p
    · rw [finishAttempt_dest_none cfg _ 1 _ fs true hdest]
      rfl
    · cases hok : wOk 1 with
      | false =>
        rw [finishAttempt_dest_some_fail cfg _ 1 _ fs true p hdest hok]
        exact retry_pipeline_cached cfg ⟨fun _ => some (.arr l), wOk⟩ true 6 2
          ((List.insertionSort rawLe l).map toCandle) fs 1
      | true =>
        rw [finishAttempt_dest_some_ok cfg _ 1 _ fs true p hdest hok]
        rfl
  · intro cfg wOk fs
    rfl
  · intro path fs d d2 fs2 fs3 h1 h2
    have e2 : fs3 = writeFile fs2 path (to_csv_string d2) := by
      simp [save_data, to_csv, Except.map] at h2
      exact h2.symm
    subst e2
    simp [readFile, writeFile, List.lookup]

/-- C1 witness: the amended policy at concrete inputs — a single fetch
under a first-save failure, seven fetches when the network always fails,
and a second write that fully overwrites the first. -/
theorem run_retry_refetch_policy_witness :
    (CryptoData_run c1cfg c1env true []).fetchCount = 1
    ∧ CryptoData_run c1cfg ⟨fun _ => none, fun _ => true⟩ true []
      = ⟨.error .network, [], 7, 7⟩
    ∧ readFile (writeFile (writeFile [] "out.csv" (to_csv_string []))
        "out.csv" (to_csv_string [toCandle sampleRaw])) "out.csv"
      = some (to_csv_string [toCandle sampleRaw]) :=
  ⟨run_retry_refetch_policy.1 c1cfg (fun i => i != 1) [] [sampleRaw] (by decide),
   run_retry_refetch_policy.2.1 c1cfg (fun _ => true) [],
   run_retry_refetch_policy.2.2 "out.csv" [] [] [toCandle sampleRaw]
     (writeFile [] "out.csv" (to_csv_string []))
     (writeFile (writeFile [] "out.csv" (to_csv_string []))
       "out.csv" (to_csv_string [toCandle sampleRaw])) rfl rfl⟩

/-- C10: the destination defaults to `None` at construction; with an absent
destination and a successful fetch of a nonempty array, `run(save=True)`
succeeds on its first attempt and leaves the filesystem untouched —
`to_csv(None)` returns the CSV text as an in-memory string, which
`save_data` discards. -/
theorem run_no_destination (cfg : Config) (env : PipeEnv) (fs : FS) (l : List RawCandle)
    (hdest : cfg.destination = none) (hfetch : env.fetch 1 = some (.arr l)) (hl : l ≠ []) :
    default_destination = none
    ∧ (∀ (data : List Candle) (ok : Bool),
        to_csv none data fs ok = .ok (fs, some (to_csv_string data)))
    ∧ CryptoData_run cfg env true fs
      = ⟨.ok (.selfResult ((List.insertionSort rawLe l).map toCandle)), fs, 1, 1⟩ := by
  refine ⟨rfl, fun data ok => rfl, ?_⟩
  show retry_pipeline cfg env true (6 + 1) 1 ⟨none⟩ fs 0 = _
  simp only [retry_pipeline]
  rw [run_once_fresh_ok cfg env true 1 fs l hfetch hl,
    finishAttempt_dest_none cfg env 1 _ fs true hdest]
  rfl

/-- Test fixture: a network that always returns one candle and writes that
always succeed. -/
def c10env : PipeEnv := ⟨fun _ => some (.arr [sampleRaw]), fun _ => true⟩

/-- Test fixture: a config with no destination path. -/
def c10cfg : Config :=
  { currency_pair := "USDT_BTC", start_timestamp := 1420070400,
    end_timestamp := 9999999999, period := 300, api := "returnChartData",
    destination := none,
    url := "https://poloniex.com/public?command=returnChartData&currencyPair=USDT_BTC&start=1420070400&end=9999999999&period=300" }

/-- C10 witness: a destination-less config run with a healthy network. -/
theorem run_no_destination_witness :
    CryptoData_run c10cfg c10env true []
      = ⟨.ok (.selfResult ((List.insertionSort rawLe [sampleRaw]).map toCandle)),
          [], 1, 1⟩ :=
  (run_no_destination c10cfg c10env [] [sampleRaw] rfl rfl (by decide)).2.2
